import Mathlib

/-!
Shallow embedding of the `youtube-transcript` forwarding handler.

The repository consists of near-duplicate Cloudflare-Worker style handlers:
`src/worker/index.js` and `src/unnamed/part_000`, each exporting a single
`fetch(request)` function.  Both are embedded below as pure Lean functions.
The runtime `fetch` collaborator (the outbound HTTP client, including the
subsequent `arrayBuffer()` body read) is abstracted as an oracle
`OutboundRequest → Except String UpstreamResponse`; a thrown error is the
`Except.error` case carrying `err.message`.  Each handler returns, besides
the HTTP response, the list of outbound calls it performed, so that
call-count properties are expressible.
-/

/-- A body passed to the `Response` constructor: either raw bytes (an
`ArrayBuffer`) or a JavaScript string. -/
inductive BodyInit where
  | bytes (data : List Nat)
  | str (text : String)
deriving DecidableEq, Repr

/-- ASCII lowercase of one character (HTTP header names are ASCII). -/
def lowerChar (c : Char) : Char :=
  if 65 ≤ c.toNat ∧ c.toNat ≤ 90 then Char.ofNat (c.toNat + 32) else c

/-- ASCII lowercase of a header name, modelling the case-insensitive name
matching of the JS `Headers` interface. -/
def lowerName (s : String) : String := String.mk (s.data.map lowerChar)

/-- Inbound request headers, as exposed by the JS `Headers` interface:
`get` is case-insensitive on the header name. -/
structure RequestHeaders where
  entries : List (String × String)
deriving DecidableEq, Repr

def RequestHeaders.get (hs : RequestHeaders) (name : String) : Option String :=
  (hs.entries.find? (fun p => lowerName p.1 == lowerName name)).map (fun p => p.2)

/-- Case-insensitive lookup in a finished header list (used to inspect the
headers of constructed requests and responses). -/
def headerValue (hs : List (String × String)) (name : String) : Option String :=
  (hs.find? (fun p => lowerName p.1 == lowerName name)).map (fun p => p.2)

/-- The JS idiom `headers.get(name) || dflt`: `get` returns `null` for an
absent header, and both `null` and the empty string are falsy, so an
empty-valued header also falls back to the default. -/
def orDefault (v : Option String) (dflt : String) : String :=
  match v with
  | some s => if s = "" then dflt else s
  | none => dflt

/-- The inbound HTTP request as the handler observes it: its method, the
already-parsed `url` query parameter (`url.searchParams.get('url')`, `none`
when the parameter is absent), its headers, and its raw body bytes
(`request.arrayBuffer()`, the empty list for a body-less request). -/
structure InboundRequest where
  method : String
  urlParam : Option String
  headers : RequestHeaders
  body : List Nat
deriving DecidableEq, Repr

/-- The outbound request handed to the runtime `fetch` collaborator. -/
structure OutboundRequest where
  url : String
  method : String
  headers : List (String × String)
  body : Option (List Nat)
  redirect : String
deriving DecidableEq, Repr

/-- The upstream response as returned by the collaborator (after following
redirects): status, headers, and the full body bytes read by
`response.arrayBuffer()`. -/
structure UpstreamResponse where
  status : Nat
  headers : RequestHeaders
  body : List Nat
deriving DecidableEq, Repr

/-- The `Response` value produced by the handler. -/
structure HttpResponse where
  status : Nat
  headers : List (String × String)
  body : Option BodyInit
deriving DecidableEq, Repr

/-- The outbound HTTP client collaborator: performing the call and reading
its full body, or failing with an error message. -/
def Upstream : Type := OutboundRequest → Except String UpstreamResponse

def userAgentValue : String :=
  "Mozilla/5.0 (Windows NT 10.0; Win64; x64) AppleWebKit/537.36 (KHTML, like Gecko) Chrome/131.0.0.0 Safari/537.36"

def defaultAcceptLanguage : String := "ko-KR,ko;q=0.9,en-US;q=0.8,en;q=0.7"

def defaultAccept : String := "text/html,application/xhtml+xml,application/xml;q=0.9,*/*;q=0.8"

def consentCookie : String :=
  "CONSENT=PENDING+987; SOCS=CAISHAgCEhJnd3NfMjAyNDAxMDEtMF9SQzIaAmVuIAEaBgiA0JCuBg"

def hexDigit (n : Nat) : Char :=
  if n < 10 then Char.ofNat (48 + n) else Char.ofNat (87 + n)

def hex4 (n : Nat) : String :=
  String.mk [hexDigit (n / 4096 % 16), hexDigit (n / 256 % 16), hexDigit (n / 16 % 16), hexDigit (n % 16)]

/-- Escaping of one character as performed by `JSON.stringify` on a string
value. -/
def jsonEscapeChar (c : Char) : String :=
  if c = '"' then "\\\""
  else if c = '\\' then "\\\\"
  else if c = '\x08' then "\\b"
  else if c = '\x0c' then "\\f"
  else if c = '\n' then "\\n"
  else if c = '\r' then "\\r"
  else if c = '\t' then "\\t"
  else if c.toNat < 32 then "\\u" ++ hex4 c.toNat
  else String.singleton c

def jsonEscape (s : String) : String :=
  String.join (s.data.map jsonEscapeChar)

/-- `JSON.stringify` of the object whose single field `error` holds `msg`. -/
def jsonErrorBody (msg : String) : String :=
  "\x7b\"error\":\"" ++ jsonEscape msg ++ "\"\x7d"

/-- The `OPTIONS` branch: `new Response(null, ...)` with the three CORS
headers; the status defaults to 200. -/
def preflightResponse : HttpResponse :=
  { status := 200
    headers := [("Access-Control-Allow-Origin", "*"),
                ("Access-Control-Allow-Methods", "GET, POST, OPTIONS"),
                ("Access-Control-Allow-Headers", "*")]
    body := none }

/-- The missing-`url` branch: `new Response('Missing url parameter', ...)`
with status 400 and no explicit headers. -/
def missingUrlResponse : HttpResponse :=
  { status := 400, headers := [], body := some (.str "Missing url parameter") }

/-- The catch branch: status 502, JSON error body, `Content-Type`
`application/json`. -/
def upstreamFailureResponse (msg : String) : HttpResponse :=
  { status := 502
    headers := [("Content-Type", "application/json")]
    body := some (.str (jsonErrorBody msg)) }

/-- The success branch: relay the upstream status and body bytes, with
`Content-Type` taken from upstream via the truthiness-based `|| 'text/html'`
idiom (an absent or empty-valued upstream `Content-Type` both default) and
`Access-Control-Allow-Origin: *`. -/
def relayResponse (resp : UpstreamResponse) : HttpResponse :=
  { status := resp.status
    headers := [("Content-Type", orDefault (resp.headers.get "Content-Type") "text/html"),
                ("Access-Control-Allow-Origin", "*")]
    body := some (.bytes resp.body) }

namespace Part000

/-- The `fetchOptions` built by `src/unnamed/part_000` lines 21-39: method
propagated, fixed `User-Agent` and `Cookie`, `Accept-Language` and `Accept`
taken from the inbound request via the truthiness-based `|| default` idiom;
for `POST` requests only, the inbound `Content-Type` (guarded by
`if (contentType)`, so only when present and non-empty) and the raw body
bytes are added. -/
def buildOutbound (request : InboundRequest) (targetUrl : String) : OutboundRequest :=
  let baseHeaders : List (String × String) :=
    [("User-Agent", userAgentValue),
     ("Accept-Language", orDefault (request.headers.get "Accept-Language") defaultAcceptLanguage),
     ("Accept", orDefault (request.headers.get "Accept") defaultAccept),
     ("Cookie", consentCookie)]
  if request.method = "POST" then
    { url := targetUrl
      method := request.method
      headers :=
        match request.headers.get "Content-Type" with
        | some ct => if ct = "" then baseHeaders else baseHeaders ++ [("Content-Type", ct)]
        | none => baseHeaders
      body := some request.body
      redirect := "follow" }
  else
    { url := targetUrl
      method := request.method
      headers := baseHeaders
      body := none
      redirect := "follow" }

/-- The handler of `src/unnamed/part_000`.  Returns the response together
with the list of outbound calls performed. -/
def fetch (request : InboundRequest) (upstream : Upstream) :
    HttpResponse × List OutboundRequest :=
  if request.method = "OPTIONS" then
    (preflightResponse, [])
  else
    match request.urlParam with
    | none => (missingUrlResponse, [])
    | some targetUrl =>
      if targetUrl = "" then
        (missingUrlResponse, [])
      else
        let outbound := buildOutbound request targetUrl
        match upstream outbound with
        | .error msg => (upstreamFailureResponse msg, [outbound])
        | .ok resp => (relayResponse resp, [outbound])

end Part000

namespace WorkerIndex

/-- The outbound request built by `src/worker/index.js` lines 22-32: a fresh
`Headers` with fixed `User-Agent`, `Accept`, `Cookie` and
forwarded-or-default `Accept-Language`; no method or body is passed to
`fetch`, so the outbound method is the default `GET` with no body. -/
def buildOutbound (request : InboundRequest) (targetUrl : String) : OutboundRequest :=
  { url := targetUrl
    method := "GET"
    headers :=
      [("User-Agent", userAgentValue),
       ("Accept-Language", orDefault (request.headers.get "Accept-Language") defaultAcceptLanguage),
       ("Accept", defaultAccept),
       ("Cookie", consentCookie)]
    body := none
    redirect := "follow" }

/-- The handler of `src/worker/index.js`. -/
def fetch (request : InboundRequest) (upstream : Upstream) :
    HttpResponse × List OutboundRequest :=
  if request.method = "OPTIONS" then
    (preflightResponse, [])
  else
    match request.urlParam with
    | none => (missingUrlResponse, [])
    | some targetUrl =>
      if targetUrl = "" then
        (missingUrlResponse, [])
      else
        let outbound := buildOutbound request targetUrl
        match upstream outbound with
        | .error msg => (upstreamFailureResponse msg, [outbound])
        | .ok resp => (relayResponse resp, [outbound])

end WorkerIndex

namespace ThirdVariant

/-- Modelled from the spec: the spec describes the repository as "three
near-duplicate variants" of the handler, with the consent `Cookie` header
"present in two of the three variants, absent in one"; only two variants are
present under the sources, so the third (the one without the `Cookie`
header) is modelled here from §4.1: fixed `User-Agent`, forwarded-or-default
`Accept-Language`, fixed default `Accept`, no `Cookie`. -/
def buildOutbound (request : InboundRequest) (targetUrl : String) : OutboundRequest :=
  { url := targetUrl
    method := "GET"
    headers :=
      [("User-Agent", userAgentValue),
       ("Accept-Language", orDefault (request.headers.get "Accept-Language") defaultAcceptLanguage),
       ("Accept", defaultAccept)]
    body := none
    redirect := "follow" }

/-- Modelled from the spec: the handler of the third variant, identical in
control flow to the two variants present under the sources. -/
def fetch (request : InboundRequest) (upstream : Upstream) :
    HttpResponse × List OutboundRequest :=
  if request.method = "OPTIONS" then
    (preflightResponse, [])
  else
    match request.urlParam with
    | none => (missingUrlResponse, [])
    | some targetUrl =>
      if targetUrl = "" then
        (missingUrlResponse, [])
      else
        let outbound := buildOutbound request targetUrl
        match upstream outbound with
        | .error msg => (upstreamFailureResponse msg, [outbound])
        | .ok resp => (relayResponse resp, [outbound])

end ThirdVariant

/-- Sequential processing of several independent inbound requests by the
`part_000` handler; the handler keeps no state between requests, so the
outbound calls are simply concatenated. -/
def processAll (requests : List InboundRequest) (upstream : Upstream) :
    List OutboundRequest :=
  (requests.map (fun r => (Part000.fetch r upstream).2)).flatten

/-- On the forwarding path (method not `OPTIONS`, non-empty `url` query
parameter) the `part_000` handler performs exactly the call on its built
outbound request and maps its outcome. -/
theorem part000_fetch_forward (request : InboundRequest) (upstream : Upstream) (t : String)
    (h1 : request.method ≠ "OPTIONS") (h2 : request.urlParam = some t) (h3 : t ≠ "") :
    Part000.fetch request upstream =
      match upstream (Part000.buildOutbound request t) with
      | .error msg => (upstreamFailureResponse msg, [Part000.buildOutbound request t])
      | .ok resp => (relayResponse resp, [Part000.buildOutbound request t]) := by
  unfold Part000.fetch
  rw [if_neg h1, h2]
  simp [if_neg h3]

/-- Forwarding-path shape of the `worker/index.js` handler. -/
theorem workerIndex_fetch_forward (request : InboundRequest) (upstream : Upstream) (t : String)
    (h1 : request.method ≠ "OPTIONS") (h2 : request.urlParam = some t) (h3 : t ≠ "") :
    WorkerIndex.fetch request upstream =
      match upstream (WorkerIndex.buildOutbound request t) with
      | .error msg => (upstreamFailureResponse msg, [WorkerIndex.buildOutbound request t])
      | .ok resp => (relayResponse resp, [WorkerIndex.buildOutbound request t]) := by
  unfold WorkerIndex.fetch
  rw [if_neg h1, h2]
  simp [if_neg h3]

/-- Forwarding-path shape of the modelled third variant. -/
theorem thirdVariant_fetch_forward (request : InboundRequest) (upstream : Upstream) (t : String)
    (h1 : request.method ≠ "OPTIONS") (h2 : request.urlParam = some t) (h3 : t ≠ "") :
    ThirdVariant.fetch request upstream =
      match upstream (ThirdVariant.buildOutbound request t) with
      | .error msg => (upstreamFailureResponse msg, [ThirdVariant.buildOutbound request t])
      | .ok resp => (relayResponse resp, [ThirdVariant.buildOutbound request t]) := by
  unfold ThirdVariant.fetch
  rw [if_neg h1, h2]
  simp [if_neg h3]

/-- Sample inbound GET request used by the witnesses. -/
def sampleGet : InboundRequest :=
  { method := "GET", urlParam := some "https://example.test/page", headers := ⟨[]⟩, body := [] }

/-- Sample 200 upstream response with a `Content-Type`. -/
def sampleRespOk : UpstreamResponse :=
  { status := 200, headers := ⟨[("Content-Type", "text/html")]⟩, body := [60, 104, 62] }

/-- Collaborator that always succeeds with `sampleRespOk`. -/
def sampleUpstreamOk : Upstream := fun _ => .ok sampleRespOk

/-- Sample 404 upstream response without a `Content-Type`. -/
def sampleResp404 : UpstreamResponse :=
  { status := 404, headers := ⟨[]⟩, body := [110] }

/-- Collaborator that always succeeds with `sampleResp404`. -/
def sampleUpstream404 : Upstream := fun _ => .ok sampleResp404

/-- Collaborator that always fails with message `fetch failed`. -/
def sampleUpstreamErr : Upstream := fun _ => .error "fetch failed"

/-- C1: on a forwarding request whose outbound call succeeds, both handlers
relay the upstream status, the full upstream body bytes, the upstream
`Content-Type` (defaulting to `text/html` when the upstream omits one —
or, per the `||` idiom, supplies only an empty value), and attach
`Access-Control-Allow-Origin: *`. -/
theorem spec_C1_relay_success (request : InboundRequest) (t : String)
    (upstream : Upstream) (resp : UpstreamResponse)
    (h1 : request.method ≠ "OPTIONS") (h2 : request.urlParam = some t) (h3 : t ≠ "")
    (h4 : upstream (Part000.buildOutbound request t) = .ok resp)
    (h5 : upstream (WorkerIndex.buildOutbound request t) = .ok resp) :
    ((Part000.fetch request upstream).1.status = resp.status
      ∧ (Part000.fetch request upstream).1.body = some (.bytes resp.body)
      ∧ headerValue (Part000.fetch request upstream).1.headers "Content-Type"
          = some (orDefault (resp.headers.get "Content-Type") "text/html")
      ∧ headerValue (Part000.fetch request upstream).1.headers "Access-Control-Allow-Origin"
          = some "*")
    ∧ ((WorkerIndex.fetch request upstream).1.status = resp.status
      ∧ (WorkerIndex.fetch request upstream).1.body = some (.bytes resp.body)
      ∧ headerValue (WorkerIndex.fetch request upstream).1.headers "Content-Type"
          = some (orDefault (resp.headers.get "Content-Type") "text/html")
      ∧ headerValue (WorkerIndex.fetch request upstream).1.headers "Access-Control-Allow-Origin"
          = some "*") := by
  rw [part000_fetch_forward request upstream t h1 h2 h3,
    workerIndex_fetch_forward request upstream t h1 h2 h3, h4, h5]
  exact ⟨⟨rfl, rfl, rfl, rfl⟩, ⟨rfl, rfl, rfl, rfl⟩⟩

/-- Witness for C1 at a concrete GET request and a concrete 200 upstream. -/
theorem spec_C1_witness :
    (Part000.fetch sampleGet sampleUpstreamOk).1.status = 200
      ∧ (Part000.fetch sampleGet sampleUpstreamOk).1.body = some (.bytes [60, 104, 62])
      ∧ headerValue (Part000.fetch sampleGet sampleUpstreamOk).1.headers "Content-Type"
          = some "text/html"
      ∧ headerValue (Part000.fetch sampleGet sampleUpstreamOk).1.headers
          "Access-Control-Allow-Origin" = some "*" :=
  (spec_C1_relay_success sampleGet "https://example.test/page" sampleUpstreamOk sampleRespOk
    (by decide) rfl (by decide) rfl rfl).1

/-- C2: on the forwarding path, both handlers answer with the 502 JSON error
response exactly when the outbound call (or its body read) raises an error —
and that response carries the raised error's own message in its JSON body —
while any successful upstream response is relayed verbatim (its own status
and body, even when non-2xx); the handlers are total functions, so no
failure escapes unhandled. -/
theorem spec_C2_upstream_failure_iff (request : InboundRequest) (t : String)
    (upstream : Upstream)
    (h1 : request.method ≠ "OPTIONS") (h2 : request.urlParam = some t) (h3 : t ≠ "") :
    ((∀ msg, upstream (Part000.buildOutbound request t) = .error msg →
        (Part000.fetch request upstream).1 = upstreamFailureResponse msg)
      ∧ ((∃ msg, upstream (Part000.buildOutbound request t) = .error msg)
        ↔ (∃ msg, (Part000.fetch request upstream).1 = upstreamFailureResponse msg))
      ∧ ∀ resp, upstream (Part000.buildOutbound request t) = .ok resp →
          (Part000.fetch request upstream).1.status = resp.status
            ∧ (Part000.fetch request upstream).1.body = some (.bytes resp.body))
    ∧ ((∀ msg, upstream (WorkerIndex.buildOutbound request t) = .error msg →
        (WorkerIndex.fetch request upstream).1 = upstreamFailureResponse msg)
      ∧ ((∃ msg, upstream (WorkerIndex.buildOutbound request t) = .error msg)
        ↔ (∃ msg, (WorkerIndex.fetch request upstream).1 = upstreamFailureResponse msg))
      ∧ ∀ resp, upstream (WorkerIndex.buildOutbound request t) = .ok resp →
          (WorkerIndex.fetch request upstream).1.status = resp.status
            ∧ (WorkerIndex.fetch request upstream).1.body = some (.bytes resp.body)) := by
  rw [part000_fetch_forward request upstream t h1 h2 h3,
    workerIndex_fetch_forward request upstream t h1 h2 h3]
  refine ⟨⟨?_, ?_, ?_⟩, ⟨?_, ?_, ?_⟩⟩
  · intro msg hmsg
    rw [hmsg]
  · cases hc : upstream (Part000.buildOutbound request t) with
    | error msg => simp [hc, upstreamFailureResponse]
    | ok resp => simp [hc, relayResponse, upstreamFailureResponse]
  · intro resp hresp
    rw [hresp]
    exact ⟨rfl, rfl⟩
  · intro msg hmsg
    rw [hmsg]
  · cases hc : upstream (WorkerIndex.buildOutbound request t) with
    | error msg => simp [hc, upstreamFailureResponse]
    | ok resp => simp [hc, relayResponse, upstreamFailureResponse]
  · intro resp hresp
    rw [hresp]
    exact ⟨rfl, rfl⟩

/-- Witness for C2: a raised error with message `fetch failed` becomes the
502 response whose JSON body quotes that very message, while a 404 upstream
response is relayed with its own status and body, not converted to 502. -/
theorem spec_C2_witness :
    (Part000.fetch sampleGet sampleUpstreamErr).1 = upstreamFailureResponse "fetch failed"
      ∧ (Part000.fetch sampleGet sampleUpstreamErr).1.status = 502
      ∧ (Part000.fetch sampleGet sampleUpstreamErr).1.body
          = some (.str "\x7b\"error\":\"fetch failed\"\x7d")
      ∧ (Part000.fetch sampleGet sampleUpstream404).1.status = 404
      ∧ (Part000.fetch sampleGet sampleUpstream404).1.body = some (.bytes [110]) := by
  have herr := (spec_C2_upstream_failure_iff sampleGet "https://example.test/page"
    sampleUpstreamErr (by decide) rfl (by decide)).1.1 "fetch failed" rfl
  have hok := (spec_C2_upstream_failure_iff sampleGet "https://example.test/page"
    sampleUpstream404 (by decide) rfl (by decide)).1.2.2 sampleResp404 rfl
  refine ⟨herr, ?_, ?_, hok.1, hok.2⟩
  · rw [herr]
    rfl
  · rw [herr]
    rfl

/-- C3: a non-`OPTIONS` request whose `url` query parameter is absent or
empty is answered by both handlers with status exactly 400, body exactly
`Missing url parameter`, and no outbound call. -/
theorem spec_C3_missing_url (request : InboundRequest) (upstream : Upstream)
    (h1 : request.method ≠ "OPTIONS")
    (h2 : request.urlParam = none ∨ request.urlParam = some "") :
    ((Part000.fetch request upstream).1.status = 400
      ∧ (Part000.fetch request upstream).1.body = some (.str "Missing url parameter")
      ∧ (Part000.fetch request upstream).2 = [])
    ∧ ((WorkerIndex.fetch request upstream).1.status = 400
      ∧ (WorkerIndex.fetch request upstream).1.body = some (.str "Missing url parameter")
      ∧ (WorkerIndex.fetch request upstream).2 = []) := by
  have hp : Part000.fetch request upstream = (missingUrlResponse, []) := by
    unfold Part000.fetch
    rw [if_neg h1]
    rcases h2 with h2 | h2 <;> simp [h2]
  have hw : WorkerIndex.fetch request upstream = (missingUrlResponse, []) := by
    unfold WorkerIndex.fetch
    rw [if_neg h1]
    rcases h2 with h2 | h2 <;> simp [h2]
  rw [hp, hw]
  exact ⟨⟨rfl, rfl, rfl⟩, ⟨rfl, rfl, rfl⟩⟩

/-- Witness for C3 at a concrete GET request without a `url` parameter. -/
theorem spec_C3_witness :
    ((Part000.fetch ⟨"GET", none, ⟨[]⟩, []⟩ sampleUpstreamOk).1.status = 400
      ∧ (Part000.fetch ⟨"GET", none, ⟨[]⟩, []⟩ sampleUpstreamOk).1.body
          = some (.str "Missing url parameter")
      ∧ (Part000.fetch ⟨"GET", none, ⟨[]⟩, []⟩ sampleUpstreamOk).2 = [])
    ∧ ((WorkerIndex.fetch ⟨"GET", none, ⟨[]⟩, []⟩ sampleUpstreamOk).1.status = 400
      ∧ (WorkerIndex.fetch ⟨"GET", none, ⟨[]⟩, []⟩ sampleUpstreamOk).1.body
          = some (.str "Missing url parameter")
      ∧ (WorkerIndex.fetch ⟨"GET", none, ⟨[]⟩, []⟩ sampleUpstreamOk).2 = []) :=
  spec_C3_missing_url ⟨"GET", none, ⟨[]⟩, []⟩ sampleUpstreamOk (by decide) (Or.inl rfl)

/-- C4: an `OPTIONS` request is answered by both handlers with a body-less
response of status 200 whose headers are exactly the three CORS preflight
headers, and no outbound call is made. -/
theorem spec_C4_preflight (request : InboundRequest) (upstream : Upstream)
    (h : request.method = "OPTIONS") :
    ((Part000.fetch request upstream).1.status = 200
      ∧ (Part000.fetch request upstream).1.body = none
      ∧ (Part000.fetch request upstream).1.headers
          = [("Access-Control-Allow-Origin", "*"),
             ("Access-Control-Allow-Methods", "GET, POST, OPTIONS"),
             ("Access-Control-Allow-Headers", "*")]
      ∧ (Part000.fetch request upstream).2 = [])
    ∧ ((WorkerIndex.fetch request upstream).1.status = 200
      ∧ (WorkerIndex.fetch request upstream).1.body = none
      ∧ (WorkerIndex.fetch request upstream).1.headers
          = [("Access-Control-Allow-Origin", "*"),
             ("Access-Control-Allow-Methods", "GET, POST, OPTIONS"),
             ("Access-Control-Allow-Headers", "*")]
      ∧ (WorkerIndex.fetch request upstream).2 = []) := by
  have hp : Part000.fetch request upstream = (preflightResponse, []) := by
    unfold Part000.fetch
    rw [if_pos h]
  have hw : WorkerIndex.fetch request upstream = (preflightResponse, []) := by
    unfold WorkerIndex.fetch
    rw [if_pos h]
  rw [hp, hw]
  exact ⟨⟨rfl, rfl, rfl, rfl⟩, ⟨rfl, rfl, rfl, rfl⟩⟩

/-- Witness for C4 at a concrete OPTIONS request. -/
theorem spec_C4_witness :
    ((Part000.fetch ⟨"OPTIONS", none, ⟨[]⟩, []⟩ sampleUpstreamOk).1.body = none
      ∧ (Part000.fetch ⟨"OPTIONS", none, ⟨[]⟩, []⟩ sampleUpstreamOk).2 = [])
    ∧ ((WorkerIndex.fetch ⟨"OPTIONS", none, ⟨[]⟩, []⟩ sampleUpstreamOk).1.body = none
      ∧ (WorkerIndex.fetch ⟨"OPTIONS", none, ⟨[]⟩, []⟩ sampleUpstreamOk).2 = []) := by
  have h := spec_C4_preflight ⟨"OPTIONS", none, ⟨[]⟩, []⟩ sampleUpstreamOk rfl
  exact ⟨⟨h.1.2.1, h.1.2.2.2⟩, ⟨h.2.2.1, h.2.2.2.2⟩⟩

/-- Sample inbound POST request with a body and a `Content-Type`. -/
def samplePost : InboundRequest :=
  { method := "POST", urlParam := some "https://example.test/page"
    headers := ⟨[("Content-Type", "application/json")]⟩, body := [123, 125] }

/-- Sample inbound PUT request with a body and a `Content-Type`. -/
def samplePut : InboundRequest :=
  { method := "PUT", urlParam := some "https://example.test/page"
    headers := ⟨[("Content-Type", "application/octet-stream")]⟩, body := [1, 2, 3] }

/-- Counterexample to C5: for a PUT request (non-GET) the `part_000` handler
does make the outbound call, but forwards neither the body bytes nor the
inbound `Content-Type` (the body/`Content-Type` propagation is guarded by
`request.method === 'POST'`); and for a POST request the `worker/index.js`
variant does not even propagate the method (its outbound call is a body-less
GET). -/
theorem spec_C5_counterexample :
    (Part000.fetch samplePut sampleUpstreamOk).2
        = [Part000.buildOutbound samplePut "https://example.test/page"]
      ∧ (Part000.buildOutbound samplePut "https://example.test/page").method = "PUT"
      ∧ (Part000.buildOutbound samplePut "https://example.test/page").body
          ≠ some samplePut.body
      ∧ headerValue (Part000.buildOutbound samplePut "https://example.test/page").headers
          "Content-Type" = none
      ∧ (WorkerIndex.buildOutbound samplePost "https://example.test/page").method ≠ "POST"
      ∧ (WorkerIndex.buildOutbound samplePost "https://example.test/page").body = none := by
  refine ⟨?_, rfl, by decide, rfl, by decide, rfl⟩
  rw [part000_fetch_forward samplePut sampleUpstreamOk "https://example.test/page"
    (by decide) rfl (by decide)]
  rfl

/-- C5 as amended: only the `part_000` variant forwards a body, and only for
POST — there the outbound request keeps the method, carries the inbound
`Content-Type` whenever present with a non-empty value (the code guards it
with `if (contentType)`), and its body bytes equal the inbound body bytes;
for any other method `part_000` still propagates the method but sends no
body; the `worker/index.js` variant always issues a body-less GET. -/
theorem spec_C5_post_body_roundtrip (request : InboundRequest) (t : String) :
    (request.method = "POST" →
      (Part000.buildOutbound request t).method = "POST"
        ∧ (Part000.buildOutbound request t).body = some request.body
        ∧ ∀ ct, request.headers.get "Content-Type" = some ct → ct ≠ "" →
            headerValue (Part000.buildOutbound request t).headers "Content-Type" = some ct)
    ∧ (request.method ≠ "POST" →
      (Part000.buildOutbound request t).method = request.method
        ∧ (Part000.buildOutbound request t).body = none)
    ∧ (WorkerIndex.buildOutbound request t).method = "GET"
    ∧ (WorkerIndex.buildOutbound request t).body = none := by
  refine ⟨fun hm => ?_, fun hm => ?_, rfl, rfl⟩
  · refine ⟨?_, ?_, fun ct hct hce => ?_⟩
    · simp [Part000.buildOutbound, hm]
    · simp [Part000.buildOutbound, hm]
    · simp only [Part000.buildOutbound, hm, hct, if_pos]
      rw [if_neg hce]
      rfl
  · constructor
    · simp [Part000.buildOutbound, hm]
    · simp [Part000.buildOutbound, hm]

/-- Witness for the amended C5: the POST body round-trips, the PUT body is
dropped. -/
theorem spec_C5_witness :
    (Part000.buildOutbound samplePost "https://example.test/page").body = some [123, 125]
      ∧ headerValue (Part000.buildOutbound samplePost "https://example.test/page").headers
          "Content-Type" = some "application/json"
      ∧ (Part000.buildOutbound samplePut "https://example.test/page").body = none :=
  ⟨((spec_C5_post_body_roundtrip samplePost "https://example.test/page").1 rfl).2.1,
   ((spec_C5_post_body_roundtrip samplePost "https://example.test/page").1 rfl).2.2
      "application/json" rfl (by decide),
   ((spec_C5_post_body_roundtrip samplePut "https://example.test/page").2.1 (by decide)).2⟩

/-- C6: every variant fixes `User-Agent` to the same desktop Chrome string
and sends the inbound `Accept-Language` when present with a non-empty value
(a fixed default otherwise, per the `||` idiom); the `part_000` variant
additionally forwards the inbound `Accept` under the same rule. -/
theorem spec_C6_spoofed_identity (request : InboundRequest) (t : String) :
    (headerValue (Part000.buildOutbound request t).headers "User-Agent" = some userAgentValue
      ∧ headerValue (WorkerIndex.buildOutbound request t).headers "User-Agent"
          = some userAgentValue
      ∧ headerValue (ThirdVariant.buildOutbound request t).headers "User-Agent"
          = some userAgentValue)
    ∧ (headerValue (Part000.buildOutbound request t).headers "Accept-Language"
        = some (orDefault (request.headers.get "Accept-Language") defaultAcceptLanguage)
      ∧ headerValue (WorkerIndex.buildOutbound request t).headers "Accept-Language"
          = some (orDefault (request.headers.get "Accept-Language") defaultAcceptLanguage)
      ∧ headerValue (ThirdVariant.buildOutbound request t).headers "Accept-Language"
          = some (orDefault (request.headers.get "Accept-Language") defaultAcceptLanguage))
    ∧ headerValue (Part000.buildOutbound request t).headers "Accept"
        = some (orDefault (request.headers.get "Accept") defaultAccept) := by
  by_cases hm : request.method = "POST"
  · cases hct : request.headers.get "Content-Type" with
    | none =>
      simp only [Part000.buildOutbound, hm, hct, if_pos]
      exact ⟨⟨rfl, rfl, rfl⟩, ⟨rfl, rfl, rfl⟩, rfl⟩
    | some ct =>
      simp only [Part000.buildOutbound, hm, hct, if_pos]
      by_cases hce : ct = ""
      · simp only [if_pos hce]
        exact ⟨⟨rfl, rfl, rfl⟩, ⟨rfl, rfl, rfl⟩, rfl⟩
      · simp only [if_neg hce]
        exact ⟨⟨rfl, rfl, rfl⟩, ⟨rfl, rfl, rfl⟩, rfl⟩
  · simp only [Part000.buildOutbound, hm, if_neg]
    exact ⟨⟨rfl, rfl, rfl⟩, ⟨rfl, rfl, rfl⟩, rfl⟩

/-- C7: the fixed consent-bypass `Cookie` (the CONSENT/SOCS pair) is set on
the outbound request of the two variants present in the sources, and absent
from the outbound request of the third (spec-modelled) variant. -/
theorem spec_C7_cookie_variants (request : InboundRequest) (t : String) :
    headerValue (Part000.buildOutbound request t).headers "Cookie" = some consentCookie
      ∧ headerValue (WorkerIndex.buildOutbound request t).headers "Cookie"
          = some consentCookie
      ∧ headerValue (ThirdVariant.buildOutbound request t).headers "Cookie" = none := by
  by_cases hm : request.method = "POST"
  · cases hct : request.headers.get "Content-Type" with
    | none =>
      simp only [Part000.buildOutbound, hm, hct, if_pos]
      exact ⟨rfl, rfl, rfl⟩
    | some ct =>
      simp only [Part000.buildOutbound, hm, hct, if_pos]
      by_cases hce : ct = ""
      · simp only [if_pos hce]
        exact ⟨rfl, rfl, rfl⟩
      · simp only [if_neg hce]
        exact ⟨rfl, rfl, rfl⟩
  · simp only [Part000.buildOutbound, hm, if_neg]
    exact ⟨rfl, rfl, rfl⟩

/-- Counterexample to C8 as stated over every inbound request: an `OPTIONS`
request is answered without any outbound call, so not every inbound request
triggers exactly one call. -/
theorem spec_C8_counterexample :
    (Part000.fetch ⟨"OPTIONS", some "https://example.test/page", ⟨[]⟩, []⟩
        sampleUpstreamOk).2.length ≠ 1
      ∧ (WorkerIndex.fetch ⟨"OPTIONS", some "https://example.test/page", ⟨[]⟩, []⟩
        sampleUpstreamOk).2.length ≠ 1 := by
  constructor
  · intro h
    simp [Part000.fetch] at h
  · intro h
    simp [WorkerIndex.fetch] at h

/-- C8 as amended: every forwarding request (method not `OPTIONS`, non-empty
`url` parameter) triggers exactly one outbound call, with no retry even when
the call fails; there is no caching: a sequence of two identical proxied GET
requests triggers exactly two outbound calls, one per request. -/
theorem spec_C8_single_call (request : InboundRequest) (t : String) (upstream : Upstream)
    (h1 : request.method ≠ "OPTIONS") (h2 : request.urlParam = some t) (h3 : t ≠ "") :
    (Part000.fetch request upstream).2 = [Part000.buildOutbound request t]
      ∧ (WorkerIndex.fetch request upstream).2 = [WorkerIndex.buildOutbound request t]
      ∧ processAll [request, request] upstream
          = [Part000.buildOutbound request t, Part000.buildOutbound request t] := by
  have hp : (Part000.fetch request upstream).2 = [Part000.buildOutbound request t] := by
    rw [part000_fetch_forward request upstream t h1 h2 h3]
    cases upstream (Part000.buildOutbound request t) <;> rfl
  have hw : (WorkerIndex.fetch request upstream).2 = [WorkerIndex.buildOutbound request t] := by
    rw [workerIndex_fetch_forward request upstream t h1 h2 h3]
    cases upstream (WorkerIndex.buildOutbound request t) <;> rfl
  refine ⟨hp, hw, ?_⟩
  simp [processAll, hp]

/-- Witness for the amended C8 at a concrete GET request repeated twice. -/
theorem spec_C8_witness :
    (Part000.fetch sampleGet sampleUpstreamOk).2.length = 1
      ∧ processAll [sampleGet, sampleGet] sampleUpstreamOk
          = [Part000.buildOutbound sampleGet "https://example.test/page",
             Part000.buildOutbound sampleGet "https://example.test/page"] := by
  have h := spec_C8_single_call sampleGet "https://example.test/page" sampleUpstreamOk
    (by decide) rfl (by decide)
  exact ⟨by rw [h.1]; rfl, h.2.2⟩

/-- C9: `Access-Control-Allow-Origin` is attached exactly to the preflight
response and to relayed success responses; the 400 missing-`url` response
and the 502 upstream-failure response carry no such header, in both
handlers. -/
theorem spec_C9_error_responses_no_cors (request : InboundRequest) (t : String)
    (upstream : Upstream) :
    (request.method = "OPTIONS" →
      headerValue (Part000.fetch request upstream).1.headers "Access-Control-Allow-Origin"
          = some "*"
        ∧ headerValue (WorkerIndex.fetch request upstream).1.headers
            "Access-Control-Allow-Origin" = some "*")
    ∧ (request.method ≠ "OPTIONS" →
      ((request.urlParam = none ∨ request.urlParam = some "") →
        headerValue (Part000.fetch request upstream).1.headers "Access-Control-Allow-Origin"
            = none
          ∧ headerValue (WorkerIndex.fetch request upstream).1.headers
              "Access-Control-Allow-Origin" = none)
      ∧ (request.urlParam = some t → t ≠ "" →
        (∀ msg, upstream (Part000.buildOutbound request t) = .error msg →
          headerValue (Part000.fetch request upstream).1.headers
            "Access-Control-Allow-Origin" = none)
        ∧ (∀ msg, upstream (WorkerIndex.buildOutbound request t) = .error msg →
          headerValue (WorkerIndex.fetch request upstream).1.headers
            "Access-Control-Allow-Origin" = none)
        ∧ (∀ resp, upstream (Part000.buildOutbound request t) = .ok resp →
          headerValue (Part000.fetch request upstream).1.headers
            "Access-Control-Allow-Origin" = some "*")
        ∧ (∀ resp, upstream (WorkerIndex.buildOutbound request t) = .ok resp →
          headerValue (WorkerIndex.fetch request upstream).1.headers
            "Access-Control-Allow-Origin" = some "*"))) := by
  refine ⟨fun h => ?_, fun h1 => ⟨fun h2 => ?_, fun h2 h3 => ?_⟩⟩
  · have hp : Part000.fetch request upstream = (preflightResponse, []) := by
      unfold Part000.fetch
      rw [if_pos h]
    have hw : WorkerIndex.fetch request upstream = (preflightResponse, []) := by
      unfold WorkerIndex.fetch
      rw [if_pos h]
    rw [hp, hw]
    exact ⟨rfl, rfl⟩
  · have hp : Part000.fetch request upstream = (missingUrlResponse, []) := by
      unfold Part000.fetch
      rw [if_neg h1]
      rcases h2 with h2 | h2 <;> simp [h2]
    have hw : WorkerIndex.fetch request upstream = (missingUrlResponse, []) := by
      unfold WorkerIndex.fetch
      rw [if_neg h1]
      rcases h2 with h2 | h2 <;> simp [h2]
    rw [hp, hw]
    exact ⟨rfl, rfl⟩
  · rw [part000_fetch_forward request upstream t h1 h2 h3,
      workerIndex_fetch_forward request upstream t h1 h2 h3]
    refine ⟨fun msg hm => ?_, fun msg hm => ?_, fun resp hr => ?_, fun resp hr => ?_⟩
    · rw [hm]
      rfl
    · rw [hm]
      rfl
    · rw [hr]
      rfl
    · rw [hr]
      rfl

/-- Witness for C9: the 400 response and the 502 response carry no
`Access-Control-Allow-Origin`, the relayed success response does. -/
theorem spec_C9_witness :
    headerValue (Part000.fetch ⟨"GET", none, ⟨[]⟩, []⟩ sampleUpstreamErr).1.headers
        "Access-Control-Allow-Origin" = none
      ∧ headerValue (Part000.fetch sampleGet sampleUpstreamErr).1.headers
          "Access-Control-Allow-Origin" = none
      ∧ headerValue (Part000.fetch sampleGet sampleUpstreamOk).1.headers
          "Access-Control-Allow-Origin" = some "*" := by
  refine ⟨?_, ?_, ?_⟩
  · exact (((spec_C9_error_responses_no_cors ⟨"GET", none, ⟨[]⟩, []⟩ "x"
      sampleUpstreamErr).2 (by decide)).1 (Or.inl rfl)).1
  · exact (((spec_C9_error_responses_no_cors sampleGet "https://example.test/page"
      sampleUpstreamErr).2 (by decide)).2 rfl (by decide)).1 "fetch failed" rfl
  · exact (((spec_C9_error_responses_no_cors sampleGet "https://example.test/page"
      sampleUpstreamOk).2 (by decide)).2 rfl (by decide)).2.2.1 sampleRespOk rfl

/-- C10: noninterference of undisclosed inbound headers — two inbound
requests with the same method, body bytes, and the same `Accept-Language`,
`Accept` and `Content-Type` header values yield identical outbound requests
to the same target, in both handlers; no other inbound header influences
the outbound request. -/
theorem spec_C10_noninterference (r1 r2 : InboundRequest) (t : String)
    (hmeth : r1.method = r2.method) (hbody : r1.body = r2.body)
    (hAL : r1.headers.get "Accept-Language" = r2.headers.get "Accept-Language")
    (hA : r1.headers.get "Accept" = r2.headers.get "Accept")
    (hCT : r1.headers.get "Content-Type" = r2.headers.get "Content-Type") :
    Part000.buildOutbound r1 t = Part000.buildOutbound r2 t
      ∧ WorkerIndex.buildOutbound r1 t = WorkerIndex.buildOutbound r2 t := by
  constructor
  · unfold Part000.buildOutbound
    rw [hmeth, hbody, hAL, hA, hCT]
  · unfold WorkerIndex.buildOutbound
    rw [hAL]

/-- Sample request carrying undisclosed headers (`Cookie`, `Authorization`). -/
def sampleReqA : InboundRequest :=
  { method := "GET", urlParam := some "https://example.test/page"
    headers := ⟨[("Cookie", "secret=1"), ("Authorization", "Bearer token")]⟩, body := [] }

/-- Sample request carrying a different undisclosed header (`Referer`). -/
def sampleReqB : InboundRequest :=
  { method := "GET", urlParam := some "https://example.test/page"
    headers := ⟨[("Referer", "https://caller.test")]⟩, body := [] }

/-- Witness for C10: two requests differing only in undisclosed headers
produce identical outbound requests. -/
theorem spec_C10_witness :
    Part000.buildOutbound sampleReqA "https://example.test/page"
        = Part000.buildOutbound sampleReqB "https://example.test/page"
      ∧ WorkerIndex.buildOutbound sampleReqA "https://example.test/page"
          = WorkerIndex.buildOutbound sampleReqB "https://example.test/page" :=
  spec_C10_noninterference sampleReqA sampleReqB "https://example.test/page" rfl rfl rfl rfl rfl
